import Mathlib

/-!
Verification of the block color-support module: attribute resolution and
synchronization for named colors, named gradients and free-form style
overrides. The definitions below embed the module's data model and its
operations: the two channel-change handlers (`onChangeColor`,
`onChangeGradient`), the save-time class filter (`addSaveProps`), the
attribute-schema filter (`addAttributes`), the local attribute shadow used
to avoid lost updates between synchronously fired callbacks, and the DOM
ancestor walk that samples an ambient background color for the contrast
checker. Collaborator functions that the module imports from elsewhere in
the repository (catalog lookups, `cleanEmptyObject`, class-name derivation)
are modelled from the specification and marked as such.
-/

set_option linter.unnecessarySeqFocus false

/-- A palette catalog entry: a stable slug naming a concrete color value. -/
structure ColorObject where
  slug : String
  color : String
deriving Repr, DecidableEq

/-- A gradient catalog entry: a stable slug naming a concrete gradient value. -/
structure GradientObject where
  slug : String
  gradient : String
deriving Repr, DecidableEq

/-- JavaScript truthiness of an optional string: present and non-empty. -/
def optTruthy : Option String → Bool
  | none => false
  | some s => s != ""

/-- Modelled from the spec: `resolveByValue(catalog, value) -> entry | undefined`,
an exact value match in the palette catalog (§4.1); the source imports
`getColorObjectByColorValue` from a colors module that is not part of this
excerpt. An absent value matches no entry. -/
def getColorObjectByColorValue (colors : List ColorObject) (value : Option String) :
    Option ColorObject :=
  match value with
  | none => none
  | some v => colors.find? (fun c => c.color == v)

/-- Modelled from the spec: reverse lookup of a gradient value to the slug of the
first catalog entry carrying exactly that value (§4.1); the source imports
`getGradientSlugByValue` from a gradients module not in this excerpt. -/
def getGradientSlugByValue (gradients : List GradientObject) (value : Option String) :
    Option String :=
  match value with
  | none => none
  | some v => (gradients.find? (fun g => g.gradient == v)).map (fun g => g.slug)

/-- Modelled from the spec: forward lookup of a gradient slug to its catalog value
(§4.1); the source imports `getGradientValueBySlug` from a gradients module not
in this excerpt. -/
def getGradientValueBySlug (gradients : List GradientObject) (slug : String) :
    Option String :=
  (gradients.find? (fun g => g.slug == slug)).map (fun g => g.gradient)

/-- The free-form per-channel raw overrides held under `style.color`. -/
structure StyleColor where
  text : Option String := none
  background : Option String := none
  gradient : Option String := none
deriving Repr, DecidableEq

/-- The `style` attribute substructure; the module only ever touches its
`color` member. -/
structure Style where
  color : Option StyleColor := none
deriving Repr, DecidableEq

/-- The attribute snapshot of one block instance: the three channel slugs and
the optional style override object. -/
structure Attributes where
  backgroundColor : Option String := none
  textColor : Option String := none
  gradient : Option String := none
  style : Option Style := none
deriving Repr, DecidableEq

/-- True when every raw override field of a `style.color` object is absent. -/
def StyleColor.isEmpty (c : StyleColor) : Bool :=
  c.text.isNone && c.background.isNone && c.gradient.isNone

/-- Modelled from the spec: `cleanEmptyObject` (imported from `./utils`, not in
this excerpt) collapses a style object that is empty after removing empty
members to an entirely absent value, so an emptied `style.color` yields an
absent `style` (§3 minimality invariant, §4.2 step 4). -/
def cleanEmptyObject (s : Style) : Option Style :=
  match s.color with
  | none => none
  | some c => if c.isEmpty then none else some { color := some c }

/-- The three attribute channels handled by the module. -/
inductive Channel
  | text
  | background
  | gradient
deriving Repr, DecidableEq

/-- The `style.color` object of a snapshot, with JavaScript optional chaining:
an absent `style` or absent `style.color` reads as the empty object. -/
def Attributes.styleColor (a : Attributes) : StyleColor :=
  (a.style.bind Style.color).getD {}

/-- The raw override field of the text channel of a snapshot. -/
def Attributes.styleText (a : Attributes) : Option String :=
  (a.style.bind Style.color).bind StyleColor.text

/-- The raw override field of the background channel of a snapshot. -/
def Attributes.styleBackground (a : Attributes) : Option String :=
  (a.style.bind Style.color).bind StyleColor.background

/-- The raw override field of the gradient channel of a snapshot. -/
def Attributes.styleGradient (a : Attributes) : Option String :=
  (a.style.bind Style.color).bind StyleColor.gradient

/-- Write one channel's raw override field of a `style.color` object. -/
def StyleColor.setChannel (c : StyleColor) (ch : Channel) (v : Option String) :
    StyleColor :=
  match ch with
  | .text => { c with text := v }
  | .background => { c with background := v }
  | .gradient => { c with gradient := v }

/-- The partial attribute object (`newAttributes` in the source) a channel-change
handler passes to `setAttributes` and merges into the local shadow: a `style`
key and exactly one channel attribute key. -/
structure AttrUpdate where
  style : Option Style
  target : Channel
  slugVal : Option String
deriving Repr, DecidableEq

/-- JavaScript spread of an update into a snapshot: the `style` key and the
targeted channel attribute key are overwritten (also when the new value is
`undefined`), every other key is kept. -/
def mergeUpdate (a : Attributes) (u : AttrUpdate) : Attributes :=
  match u.target with
  | .text => { a with style := u.style, textColor := u.slugVal }
  | .background => { a with style := u.style, backgroundColor := u.slugVal }
  | .gradient => { a with style := u.style, gradient := u.slugVal }

/-- The new `style.color` object a channel change computes from the current
snapshot, before `cleanEmptyObject`: the color handler stores the value in the
channel's override field unless the reverse lookup found an entry with a truthy
slug; the gradient handler clears the override on a truthy slug match and
stores the value otherwise. -/
def newStyleColorFor (colors : List ColorObject) (gradients : List GradientObject)
    (ch : Channel) (value : Option String) (cur : Attributes) : StyleColor :=
  match ch with
  | .gradient =>
    if optTruthy (getGradientSlugByValue gradients value) then
      cur.styleColor.setChannel .gradient none
    else
      cur.styleColor.setChannel .gradient value
  | .text =>
    let colorObject := getColorObjectByColorValue colors value
    cur.styleColor.setChannel .text
      (if optTruthy (colorObject.map ColorObject.slug) then none else value)
  | .background =>
    let colorObject := getColorObjectByColorValue colors value
    cur.styleColor.setChannel .background
      (if optTruthy (colorObject.map ColorObject.slug) then none else value)

/-- The `newAttributes` object built by `onChangeColor` (text and background
channels) and `onChangeGradient` (gradient channel) from the current snapshot:
cleaned style plus the new channel slug. -/
def mkUpdate (colors : List ColorObject) (gradients : List GradientObject)
    (ch : Channel) (value : Option String) (cur : Attributes) : AttrUpdate :=
  let newColor := newStyleColorFor colors gradients ch value cur
  let newStyle := cleanEmptyObject { color := some newColor }
  match ch with
  | .gradient =>
    let slug := getGradientSlugByValue gradients value
    if optTruthy slug then
      { style := newStyle, target := .gradient, slugVal := slug }
    else
      { style := newStyle, target := .gradient, slugVal := none }
  | .text =>
    let colorObject := getColorObjectByColorValue colors value
    { style := newStyle, target := .text,
      slugVal :=
        if optTruthy (colorObject.map ColorObject.slug) then
          colorObject.map ColorObject.slug
        else none }
  | .background =>
    let colorObject := getColorObjectByColorValue colors value
    { style := newStyle, target := .background,
      slugVal :=
        if optTruthy (colorObject.map ColorObject.slug) then
          colorObject.map ColorObject.slug
        else none }

/-- One channel change applied to a snapshot: the update computed from the
snapshot, merged back into it (what a handler does to the local shadow, and
what the host store ends up with after the commit). -/
def applyChannelChange (colors : List ColorObject) (gradients : List GradientObject)
    (ch : Channel) (value : Option String) (cur : Attributes) : Attributes :=
  mergeUpdate cur (mkUpdate colors gradients ch value cur)

/-- The channel slug attribute of a snapshot. -/
def channelSlug (a : Attributes) : Channel → Option String
  | .text => a.textColor
  | .background => a.backgroundColor
  | .gradient => a.gradient

/-- The channel raw override field of a snapshot. -/
def channelOverride (a : Attributes) : Channel → Option String
  | .text => a.styleText
  | .background => a.styleBackground
  | .gradient => a.styleGradient

/-- The slug the relevant catalog's reverse lookup associates to a value for a
given channel (the color catalog for text and background, the gradient catalog
for gradient). -/
def matchedSlug (colors : List ColorObject) (gradients : List GradientObject)
    (ch : Channel) (value : Option String) : Option String :=
  match ch with
  | .gradient => getGradientSlugByValue gradients value
  | .text => (getColorObjectByColorValue colors value).map ColorObject.slug
  | .background => (getColorObjectByColorValue colors value).map ColorObject.slug

/-- The state relevant to the shadow mechanism in `withBlockControls`: the
host's canonical attribute store (updated synchronously by `setAttributes`),
the props last delivered to the component by a host render, and the
`localAttributes` ref (the shadow). -/
structure EditorState where
  store : Attributes
  props : Attributes
  shadow : Attributes
deriving Repr, DecidableEq

/-- An event seen by a mounted block-edit instance: a channel-change callback
firing, or a host-driven render delivering fresh props. -/
inductive EditorEvent
  | change (ch : Channel) (value : Option String)
  | hostRender
deriving Repr, DecidableEq

/-- One event step. A change handler reads the shadow (never the props),
builds its update from it, commits the update to the host store via
`setAttributes`, and merges the same update into the shadow before returning.
A host render delivers the store as the new props, and the post-render effect
unconditionally resets the shadow to those props. -/
def editorStep (colors : List ColorObject) (gradients : List GradientObject)
    (st : EditorState) : EditorEvent → EditorState
  | .change ch value =>
    let u := mkUpdate colors gradients ch value st.shadow
    { store := mergeUpdate st.store u
      props := st.props
      shadow := mergeUpdate st.shadow u }
  | .hostRender => { store := st.store, props := st.store, shadow := st.store }

/-- Run a mounted instance from an initial host snapshot (shadow initialized
from the props on mount) through a sequence of events. -/
def runEditor (colors : List ColorObject) (gradients : List GradientObject)
    (init : Attributes) (events : List EditorEvent) : EditorState :=
  events.foldl (editorStep colors gradients) { store := init, props := init, shadow := init }

/-- The reference semantics of a batch of channel changes: each change applied
to the cumulative result of the previous ones. -/
def runBatch (colors : List ColorObject) (gradients : List GradientObject)
    (calls : List (Channel × Option String)) (init : Attributes) : Attributes :=
  calls.foldl (fun cur c => applyChannelChange colors gradients c.1 c.2 cur) init

/-- The change events corresponding to a batch of channel-change calls. -/
def changeEvents (calls : List (Channel × Option String)) : List EditorEvent :=
  calls.map (fun c => EditorEvent.change c.1 c.2)

/-- An ancestor in the parent chain of a block's root node: whether it is an
ELEMENT_NODE, and its computed background color. -/
structure AncestorNode where
  isElement : Bool
  backgroundColor : String
deriving Repr, DecidableEq

/-- The single transparent serialization the sampler's loop compares against. -/
def transparentSentinel : String := "rgba(0, 0, 0, 0)"

/-- The sampler's transparency test: string equality with the sentinel. -/
def isTransparent (s : String) : Bool := s == transparentSentinel

/-- The ancestor walk of the `ColorPanel` effect: while the current background
is the transparent sentinel and a parent exists and that parent is an
ELEMENT_NODE, move to the parent and read its background; otherwise stop and
keep the last-seen value. -/
def walkBackground (bg : String) : List AncestorNode → String
  | [] => bg
  | a :: rest =>
    if isTransparent bg && a.isElement then walkBackground a.backgroundColor rest
    else bg

/-- A block's rendered root node: its computed text color, its computed
background color, and its chain of parent nodes. -/
structure RootNode where
  color : String
  backgroundColor : String
  ancestors : List AncestorNode
deriving Repr, DecidableEq

/-- The advisory contrast sample held in the panel's two state cells. -/
structure ContrastSample where
  backgroundColor : Option String
  textColor : Option String
deriving Repr, DecidableEq

/-- The panel's state on mount: both detected values start out absent. -/
def initialContrastSample : ContrastSample :=
  { backgroundColor := none, textColor := none }

/-- One run of the `ColorPanel` effect: when the block's DOM node is absent the
effect returns early and the state is left as it was; otherwise it stores the
node's computed text color and the ancestor-walked background color. -/
def colorPanelEffect (prev : ContrastSample) (root : Option RootNode) : ContrastSample :=
  match root with
  | none => prev
  | some r =>
    { backgroundColor := some (walkBackground r.backgroundColor r.ancestors)
      textColor := some r.color }

/-- Modelled from the spec: the typed color capability of a block type (§9),
standing for the host's `hasBlockSupport` and `getBlockSupport` answers on the
color support key: no support, plain color support, or color support whose
descriptor is an object with a truthy `gradients` flag. -/
inductive ColorCapability
  | unsupported
  | basic
  | withGradients
deriving Repr, DecidableEq

/-- `hasColorSupport` of the source: the block type declares the color key. -/
def hasColorSupport (cap : ColorCapability) : Bool :=
  cap != ColorCapability.unsupported

/-- `hasGradientSupport` of the source: the color support descriptor is an
object with a truthy `gradients` flag. -/
def hasGradientSupport (cap : ColorCapability) : Bool :=
  cap == ColorCapability.withGradients

/-- A block settings object as `addAttributes` sees it: its color capability
and which of the three attributes are already declared. -/
structure BlockSettings where
  support : ColorCapability
  hasBackgroundColorAttribute : Bool
  hasTextColorAttribute : Bool
  hasGradientAttribute : Bool
deriving Repr, DecidableEq

/-- The `addAttributes` settings filter: without color support the settings are
returned unchanged; otherwise the `backgroundColor` and `textColor` attributes
are declared when missing, and the `gradient` attribute is declared when
gradient support is on and it is missing. -/
def addAttributes (s : BlockSettings) : BlockSettings :=
  if !hasColorSupport s.support then s
  else
    let s1 :=
      if !s.hasBackgroundColorAttribute then { s with hasBackgroundColorAttribute := true }
      else s
    let s2 :=
      if !s1.hasTextColorAttribute then { s1 with hasTextColorAttribute := true }
      else s1
    if hasGradientSupport s2.support && !s2.hasGradientAttribute then
      { s2 with hasGradientAttribute := true }
    else s2

/-- The props object handed to the save-props filter. -/
structure SaveProps where
  className : Option String
deriving Repr, DecidableEq

/-- Modelled from the spec: `getColorClassName`, the slug-derived class name
for a color context (§6), absent when the slug is absent or empty; imported by
the source from a colors module not in this excerpt. -/
def getColorClassName (context : String) (slug : Option String) : Option String :=
  match slug with
  | none => none
  | some s => if s == "" then none else some ("has-" ++ s ++ "-" ++ context)

/-- Modelled from the spec: the slug-derived gradient class (§6), absent when
the slug is absent or empty; imported by the source as
`__experimentalGetGradientClass` from a gradients module not in this excerpt. -/
def getGradientClass (slug : Option String) : Option String :=
  match slug with
  | none => none
  | some s => if s == "" then none else some ("has-" ++ s ++ "-gradient-background")

/-- The arguments the save-props filter passes to `classnames`, one slot per
argument: the incoming class string, the three derived class names, the
condition under which the background class is applied (no gradient support, or
no truthy raw gradient override, and the class exists), and the two boolean
flag classes. -/
structure SaveClassSet where
  existing : Option String
  textClass : Option String
  gradientClass : Option String
  backgroundClass : Option String
  includeBackgroundClass : Bool
  hasTextColorFlag : Bool
  hasBackgroundFlag : Bool
deriving Repr, DecidableEq

/-- Compute the `classnames` arguments of `addSaveProps` from the block type's
capability, the incoming props and the attributes. -/
def computeSaveClassSet (cap : ColorCapability) (props : SaveProps)
    (attributes : Attributes) : SaveClassSet :=
  let hasGradient := hasGradientSupport cap
  let backgroundClass := getColorClassName "background-color" attributes.backgroundColor
  let gradientClass := getGradientClass attributes.gradient
  let textClass := getColorClassName "color" attributes.textColor
  { existing := props.className
    textClass := textClass
    gradientClass := gradientClass
    backgroundClass := backgroundClass
    includeBackgroundClass :=
      (!hasGradient || !optTruthy attributes.styleGradient) && backgroundClass.isSome
    hasTextColorFlag := optTruthy attributes.textColor || optTruthy attributes.styleText
    hasBackgroundFlag :=
      optTruthy attributes.backgroundColor || optTruthy attributes.styleBackground ||
        (hasGradient && (optTruthy attributes.gradient || optTruthy attributes.styleGradient)) }

/-- The class list `classnames` assembles from its arguments, in argument
order, keeping only truthy strings and the object keys whose condition holds. -/
def SaveClassSet.toList (s : SaveClassSet) : List String :=
  (match s.existing with
   | none => []
   | some e => if e == "" then [] else [e]) ++
  s.textClass.toList ++
  s.gradientClass.toList ++
  (if s.includeBackgroundClass then s.backgroundClass.toList else []) ++
  (if s.hasTextColorFlag then ["has-text-color"] else []) ++
  (if s.hasBackgroundFlag then ["has-background"] else [])

/-- The space-joined class string `classnames` returns. -/
def classnamesJoin : List String → String
  | [] => ""
  | [c] => c
  | c :: rest => c ++ " " ++ classnamesJoin rest

/-- The `addSaveProps` filter: without color support the props pass through
unchanged; otherwise the className becomes the assembled class string, or
absent when that string is empty. -/
def addSaveProps (cap : ColorCapability) (props : SaveProps)
    (attributes : Attributes) : SaveProps :=
  if !hasColorSupport cap then props
  else
    let newClassName := classnamesJoin (computeSaveClassSet cap props attributes).toList
    { className := if newClassName == "" then none else some newClassName }

/-- The `gradientValue` the panel displays, from `withBlockControls`: with
gradient support and a truthy gradient slug, the forward catalog lookup of the
slug; with gradient support and no truthy slug, the raw style override
unchanged; without gradient support, absent. -/
def panelGradientValue (cap : ColorCapability) (gradients : List GradientObject)
    (attributes : Attributes) : Option String :=
  if hasGradientSupport cap && optTruthy attributes.gradient then
    getGradientValueBySlug gradients (attributes.gradient.getD "")
  else if hasGradientSupport cap then
    attributes.styleGradient
  else none

/-- Project one channel's raw override field out of a `style.color` object. -/
def StyleColor.channelField (c : StyleColor) : Channel → Option String
  | .text => c.text
  | .background => c.background
  | .gradient => c.gradient

/-- Merging an update rewrites exactly the `style` key. -/
theorem mergeUpdate_style (a : Attributes) (u : AttrUpdate) :
    (mergeUpdate a u).style = u.style := by
  cases ht : u.target <;> simp [mergeUpdate, ht]

/-- Merging an update writes its slug value into its target channel's slot. -/
theorem channelSlug_mergeUpdate (a : Attributes) (u : AttrUpdate) :
    channelSlug (mergeUpdate a u) u.target = u.slugVal := by
  cases ht : u.target <;> simp [mergeUpdate, channelSlug, ht]

/-- The update a channel change builds carries the cleaned new style. -/
theorem mkUpdate_style (colors : List ColorObject) (gradients : List GradientObject)
    (ch : Channel) (value : Option String) (cur : Attributes) :
    (mkUpdate colors gradients ch value cur).style
      = cleanEmptyObject { color := some (newStyleColorFor colors gradients ch value cur) } := by
  cases ch <;> simp only [mkUpdate] <;> (try split) <;> rfl

/-- The update a channel change builds targets that channel. -/
theorem mkUpdate_target (colors : List ColorObject) (gradients : List GradientObject)
    (ch : Channel) (value : Option String) (cur : Attributes) :
    (mkUpdate colors gradients ch value cur).target = ch := by
  cases ch <;> simp only [mkUpdate] <;> (try split) <;> rfl

/-- The slug an update carries: the reverse-lookup result when truthy, else
nothing. -/
theorem mkUpdate_slugVal (colors : List ColorObject) (gradients : List GradientObject)
    (ch : Channel) (value : Option String) (cur : Attributes) :
    (mkUpdate colors gradients ch value cur).slugVal
      = (if optTruthy (matchedSlug colors gradients ch value) then
          matchedSlug colors gradients ch value
         else none) := by
  cases ch <;> simp only [mkUpdate, matchedSlug] <;> (try split) <;> simp_all

/-- Reading a channel override goes through the snapshot's style object. -/
theorem channelOverride_eq (a : Attributes) (ch : Channel) :
    channelOverride a ch
      = (a.style.bind Style.color).bind (fun c => c.channelField ch) := by
  cases ch <;> rfl

/-- Cleaning never changes what the per-channel override fields read back:
an emptied object reads absent fields either way. -/
theorem cleanEmptyObject_channelField (c : StyleColor) (ch : Channel) :
    ((cleanEmptyObject { color := some c }).bind Style.color).bind
        (fun x => x.channelField ch)
      = c.channelField ch := by
  by_cases he : c.isEmpty = true
  · rcases c with ⟨t, b, g⟩
    simp [StyleColor.isEmpty, Option.isNone_iff_eq_none] at he
    obtain ⟨⟨h1, h2⟩, h3⟩ := he
    cases ch <;>
      simp [cleanEmptyObject, StyleColor.isEmpty, h1, h2, h3, StyleColor.channelField]
  · simp [cleanEmptyObject, he]

/-- Writing a channel field then reading it back gives the written value. -/
theorem setChannel_channelField (c : StyleColor) (ch : Channel) (v : Option String) :
    (c.setChannel ch v).channelField ch = v := by
  cases ch <;> rfl

/-- The new style object's own channel field: absent on a truthy slug match,
the given value otherwise. -/
theorem newStyleColorFor_channelField (colors : List ColorObject)
    (gradients : List GradientObject) (ch : Channel) (value : Option String)
    (cur : Attributes) :
    (newStyleColorFor colors gradients ch value cur).channelField ch
      = (if optTruthy (matchedSlug colors gradients ch value) then none else value) := by
  cases ch <;> simp only [newStyleColorFor, matchedSlug] <;> split <;>
    simp_all [setChannel_channelField]

/-- The style of a snapshot after a channel change is the cleaned new style. -/
theorem applyChannelChange_style (colors : List ColorObject)
    (gradients : List GradientObject) (ch : Channel) (value : Option String)
    (cur : Attributes) :
    (applyChannelChange colors gradients ch value cur).style
      = cleanEmptyObject { color := some (newStyleColorFor colors gradients ch value cur) } := by
  rw [applyChannelChange, mergeUpdate_style, mkUpdate_style]

/-- The changed channel's slug after a channel change. -/
theorem applyChannelChange_slug (colors : List ColorObject)
    (gradients : List GradientObject) (ch : Channel) (value : Option String)
    (cur : Attributes) :
    channelSlug (applyChannelChange colors gradients ch value cur) ch
      = (if optTruthy (matchedSlug colors gradients ch value) then
          matchedSlug colors gradients ch value
         else none) := by
  rw [applyChannelChange]
  have h := channelSlug_mergeUpdate cur (mkUpdate colors gradients ch value cur)
  rw [mkUpdate_target] at h
  rw [h, mkUpdate_slugVal]

/-- The changed channel's raw override after a channel change. -/
theorem applyChannelChange_override (colors : List ColorObject)
    (gradients : List GradientObject) (ch : Channel) (value : Option String)
    (cur : Attributes) :
    channelOverride (applyChannelChange colors gradients ch value cur) ch
      = (if optTruthy (matchedSlug colors gradients ch value) then none else value) := by
  rw [channelOverride_eq, applyChannelChange_style, cleanEmptyObject_channelField,
    newStyleColorFor_channelField]

/-- C1 (counterexample): with a catalog entry whose slug is the empty string,
a text-channel change to that entry's exact value matches the entry, yet the
handler neither sets the slug nor clears the raw override — the override keeps
the chosen value, contradicting the claim's match clause as stated. -/
theorem channelChange_priority_counterexample :
    getColorObjectByColorValue [⟨"", "#fff"⟩] (some "#fff") = some ⟨"", "#fff"⟩ ∧
    channelSlug (applyChannelChange [⟨"", "#fff"⟩] [] Channel.text (some "#fff") {})
        Channel.text = none ∧
    channelOverride (applyChannelChange [⟨"", "#fff"⟩] [] Channel.text (some "#fff") {})
        Channel.text = some "#fff" := by
  decide

/-- C1 (amended): after any channel change, at most one of the changed
channel's slug and raw override is non-empty; when the new value reverse-looks
up to a truthy (non-empty) slug, that slug is set and the override is cleared;
when it does not, the slug is cleared. -/
theorem channelChange_priority (colors : List ColorObject)
    (gradients : List GradientObject) (ch : Channel) (value : Option String)
    (cur : Attributes) :
    (¬(optTruthy (channelSlug (applyChannelChange colors gradients ch value cur) ch) = true ∧
        optTruthy (channelOverride (applyChannelChange colors gradients ch value cur) ch) = true)) ∧
    (optTruthy (matchedSlug colors gradients ch value) = true →
        channelSlug (applyChannelChange colors gradients ch value cur) ch
            = matchedSlug colors gradients ch value ∧
        channelOverride (applyChannelChange colors gradients ch value cur) ch = none) ∧
    (optTruthy (matchedSlug colors gradients ch value) = false →
        channelSlug (applyChannelChange colors gradients ch value cur) ch = none) := by
  rw [applyChannelChange_slug, applyChannelChange_override]
  by_cases hT : optTruthy (matchedSlug colors gradients ch value) = true
  · simp only [hT, if_true]
    simp [optTruthy]
  · simp only [Bool.not_eq_true] at hT
    simp only [hT]
    simp [optTruthy]

/-- C1 (witness): a text-channel change to a value carried by a catalog entry
with non-empty slug sets that slug and clears the override. -/
theorem channelChange_priority_witness :
    optTruthy (matchedSlug [⟨"red", "#ff0000"⟩] [] Channel.text (some "#ff0000")) = true ∧
    channelSlug (applyChannelChange [⟨"red", "#ff0000"⟩] [] Channel.text (some "#ff0000") {})
        Channel.text = matchedSlug [⟨"red", "#ff0000"⟩] [] Channel.text (some "#ff0000") ∧
    channelOverride (applyChannelChange [⟨"red", "#ff0000"⟩] [] Channel.text (some "#ff0000") {})
        Channel.text = none :=
  ⟨by decide,
    (channelChange_priority [⟨"red", "#ff0000"⟩] [] Channel.text (some "#ff0000") {}).2.1
      (by decide)⟩

/-- C5: whenever the new `style.color` object a channel change computes is
empty, the resulting snapshot's `style` is entirely absent, never a residual
empty object. -/
theorem channelChange_minimality (colors : List ColorObject)
    (gradients : List GradientObject) (ch : Channel) (value : Option String)
    (cur : Attributes)
    (h : (newStyleColorFor colors gradients ch value cur).isEmpty = true) :
    (applyChannelChange colors gradients ch value cur).style = none := by
  rw [applyChannelChange_style]
  simp [cleanEmptyObject, h]

/-- C5 (witness): clearing the text channel of a snapshot with no overrides
leaves `style` absent. -/
theorem channelChange_minimality_witness :
    (newStyleColorFor [] [] Channel.text none {}).isEmpty = true ∧
    (applyChannelChange [] [] Channel.text none {}).style = none :=
  ⟨by decide, channelChange_minimality [] [] Channel.text none {} (by decide)⟩

/-- C7: a gradient change whose value has no truthy match in the gradient
catalog (including an absent value) clears the gradient slug and makes the
`style.color.gradient` override read back exactly the given value. -/
theorem onChangeGradient_custom (colors : List ColorObject)
    (gradients : List GradientObject) (value : Option String) (cur : Attributes)
    (h : optTruthy (getGradientSlugByValue gradients value) = false) :
    (applyChannelChange colors gradients Channel.gradient value cur).gradient = none ∧
    (applyChannelChange colors gradients Channel.gradient value cur).styleGradient = value := by
  have hm : matchedSlug colors gradients Channel.gradient value
      = getGradientSlugByValue gradients value := rfl
  constructor
  · have e1 : (applyChannelChange colors gradients Channel.gradient value cur).gradient
        = channelSlug (applyChannelChange colors gradients Channel.gradient value cur)
            Channel.gradient := rfl
    rw [e1, applyChannelChange_slug, hm, h]
    simp
  · have e2 : (applyChannelChange colors gradients Channel.gradient value cur).styleGradient
        = channelOverride (applyChannelChange colors gradients Channel.gradient value cur)
            Channel.gradient := rfl
    rw [e2, applyChannelChange_override, hm, h]
    simp

/-- C7 (witness): changing the gradient to a custom value not in the catalog
clears the slug and stores the value as the raw override. -/
theorem onChangeGradient_custom_witness :
    optTruthy (getGradientSlugByValue [⟨"cool", "lg1"⟩] (some "custom2")) = false ∧
    ((applyChannelChange [] [⟨"cool", "lg1"⟩] Channel.gradient (some "custom2") {}).gradient
        = none ∧
     (applyChannelChange [] [⟨"cool", "lg1"⟩] Channel.gradient (some "custom2") {}).styleGradient
        = some "custom2") :=
  ⟨by decide,
    onChangeGradient_custom [] [⟨"cool", "lg1"⟩] (some "custom2") {} (by decide)⟩

/-- Processing a batch of change events keeps the host store and the shadow in
step, and both end at the fold of the changes over the shadow's start value. -/
theorem editor_changes_cumulative (colors : List ColorObject)
    (gradients : List GradientObject) :
    ∀ (calls : List (Channel × Option String)) (st : EditorState),
      st.store = st.shadow →
      ((changeEvents calls).foldl (editorStep colors gradients) st).store
          = runBatch colors gradients calls st.shadow ∧
      ((changeEvents calls).foldl (editorStep colors gradients) st).shadow
          = runBatch colors gradients calls st.shadow := by
  intro calls
  induction calls with
  | nil =>
    intro st h
    exact ⟨by simpa [changeEvents, runBatch] using h, by simp [changeEvents, runBatch]⟩
  | cons c rest ih =>
    intro st h
    have hsh : (editorStep colors gradients st (EditorEvent.change c.1 c.2)).shadow
        = applyChannelChange colors gradients c.1 c.2 st.shadow := rfl
    have hst : (editorStep colors gradients st (EditorEvent.change c.1 c.2)).store
        = applyChannelChange colors gradients c.1 c.2 st.shadow := by
      simp [editorStep, applyChannelChange, h]
    have hrec := ih (editorStep colors gradients st (EditorEvent.change c.1 c.2))
      (by rw [hst, hsh])
    rw [hsh] at hrec
    simpa [changeEvents, runBatch] using hrec

/-- C2: a synchronous batch of channel-change calls processed through the
local shadow loses no updates — after the batch, both the host store (the
merged commits) and the shadow equal the changes folded cumulatively over the
initial snapshot, each call having observed the effect of all earlier ones. -/
theorem shadow_no_lost_updates (colors : List ColorObject)
    (gradients : List GradientObject) (init : Attributes)
    (calls : List (Channel × Option String)) :
    (runEditor colors gradients init (changeEvents calls)).store
        = runBatch colors gradients calls init ∧
    (runEditor colors gradients init (changeEvents calls)).shadow
        = runBatch colors gradients calls init :=
  editor_changes_cumulative colors gradients calls
    { store := init, props := init, shadow := init } rfl

/-- C6: after any event sequence that ends with a host-driven render, the
shadow has been unconditionally reset to the freshly delivered props, which
are the host's canonical store. -/
theorem shadow_reset_on_hostRender (colors : List ColorObject)
    (gradients : List GradientObject) (init : Attributes)
    (events : List EditorEvent) :
    (runEditor colors gradients init (events ++ [EditorEvent.hostRender])).shadow
        = (runEditor colors gradients init (events ++ [EditorEvent.hostRender])).props ∧
    (runEditor colors gradients init (events ++ [EditorEvent.hostRender])).props
        = (runEditor colors gradients init (events ++ [EditorEvent.hostRender])).store := by
  simp [runEditor, List.foldl_append, editorStep]

/-- C9: while the block's DOM node is absent, any number of effect runs from
mount leaves the contrast sample at its initial state, both fields absent —
no error and no other value is ever produced. -/
theorem contrastSampler_missing_node (n : Nat) :
    (List.replicate n (none : Option RootNode)).foldl colorPanelEffect
        initialContrastSample = initialContrastSample ∧
    initialContrastSample.backgroundColor = none ∧
    initialContrastSample.textColor = none := by
  refine ⟨?_, rfl, rfl⟩
  induction n with
  | zero => rfl
  | succ k ih => simpa [List.replicate_succ, colorPanelEffect] using ih

/-- C10: a block type without color support passes through both filters
untouched: the save-props filter returns its props argument unchanged and the
attributes filter returns the settings unchanged. -/
theorem noColorSupport_frame (cap : ColorCapability) (props : SaveProps)
    (attributes : Attributes) (s : BlockSettings)
    (h1 : hasColorSupport cap = false) (h2 : hasColorSupport s.support = false) :
    addSaveProps cap props attributes = props ∧ addAttributes s = s := by
  constructor
  · simp [addSaveProps, h1]
  · simp [addAttributes, h2]

/-- C10 (witness): an unsupported block type keeps its className and its
attribute declarations. -/
theorem noColorSupport_frame_witness :
    hasColorSupport ColorCapability.unsupported = false ∧
    addSaveProps ColorCapability.unsupported { className := some "x" } {}
        = { className := some "x" } ∧
    addAttributes
        { support := ColorCapability.unsupported, hasBackgroundColorAttribute := false,
          hasTextColorAttribute := false, hasGradientAttribute := false }
      = { support := ColorCapability.unsupported, hasBackgroundColorAttribute := false,
          hasTextColorAttribute := false, hasGradientAttribute := false } :=
  ⟨by decide,
    noColorSupport_frame ColorCapability.unsupported { className := some "x" } {}
      { support := ColorCapability.unsupported, hasBackgroundColorAttribute := false,
        hasTextColorAttribute := false, hasGradientAttribute := false }
      (by decide) (by decide)⟩

/-- A walk that starts transparent over an all-transparent chain ends on a
transparent value. -/
theorem walkBackground_transparent (l : List AncestorNode) :
    ∀ bg : String, isTransparent bg = true →
      (∀ a ∈ l, isTransparent a.backgroundColor = true) →
      isTransparent (walkBackground bg l) = true := by
  induction l with
  | nil =>
    intro bg h _
    simpa [walkBackground] using h
  | cons a rest ih =>
    intro bg h hall
    by_cases he : a.isElement = true
    · have hmem := hall a (by simp)
      have hrest : ∀ x ∈ rest, isTransparent x.backgroundColor = true :=
        fun x hx => hall x (by simp [hx])
      simp only [walkBackground, h, he, Bool.and_self, if_true]
      exact ih a.backgroundColor hmem hrest
    · have hef : a.isElement = false := by simpa using he
      simpa [walkBackground, hef] using h

/-- C3: when the root's computed background denotes full transparency, the
sampler steps to an element parent and repeats; over a chain whose backgrounds
are all transparent it ends with the last-seen transparent value in the
sample, never an absent backgroundColor and never a failure. -/
theorem contrast_transparent_fallback (prev : ContrastSample) (r : RootNode)
    (h1 : isTransparent r.backgroundColor = true)
    (h2 : ∀ a ∈ r.ancestors, isTransparent a.backgroundColor = true) :
    (∀ (a : AncestorNode) (rest : List AncestorNode),
        r.ancestors = a :: rest → a.isElement = true →
        walkBackground r.backgroundColor r.ancestors
          = walkBackground a.backgroundColor rest) ∧
    (∃ v, (colorPanelEffect prev (some r)).backgroundColor = some v ∧
        isTransparent v = true) := by
  constructor
  · intro a rest hcons hel
    rw [hcons]
    simp [walkBackground, h1, hel]
  · exact ⟨walkBackground r.backgroundColor r.ancestors, rfl,
      walkBackground_transparent r.ancestors r.backgroundColor h1 h2⟩

/-- C3 (witness): a fully transparent root over one transparent element parent
samples a transparent value, not an absent one. -/
theorem contrast_transparent_fallback_witness :
    isTransparent ("rgba(0, 0, 0, 0)" : String) = true ∧
    (∃ v, (colorPanelEffect initialContrastSample
        (some { color := "rgb(10, 10, 10)", backgroundColor := "rgba(0, 0, 0, 0)",
                ancestors := [{ isElement := true, backgroundColor := "rgba(0, 0, 0, 0)" }] })).backgroundColor
          = some v ∧ isTransparent v = true) :=
  ⟨by decide,
    (contrast_transparent_fallback initialContrastSample
      { color := "rgb(10, 10, 10)", backgroundColor := "rgba(0, 0, 0, 0)",
        ancestors := [{ isElement := true, backgroundColor := "rgba(0, 0, 0, 0)" }] }
      (by decide) (by decide)).2⟩

/-- C8: with gradient support, a truthy gradient slug makes the displayed
gradient value the forward catalog lookup of that slug (absent when the slug
is in no catalog entry); with no truthy slug the raw override is returned
unchanged, never looked up in the catalog. -/
theorem panel_effective_gradient_value (cap : ColorCapability)
    (gradients : List GradientObject) (attributes : Attributes)
    (hg : hasGradientSupport cap = true) :
    (optTruthy attributes.gradient = true →
        panelGradientValue cap gradients attributes
            = getGradientValueBySlug gradients (attributes.gradient.getD "")) ∧
    (optTruthy attributes.gradient = false →
        panelGradientValue cap gradients attributes = attributes.styleGradient) ∧
    (∀ slug : String, (∀ g ∈ gradients, g.slug ≠ slug) →
        getGradientValueBySlug gradients slug = none) := by
  refine ⟨?_, ?_, ?_⟩
  · intro ht
    simp [panelGradientValue, hg, ht]
  · intro hf
    simp [panelGradientValue, hg, hf]
  · intro slug hmiss
    have hfind : gradients.find? (fun g => g.slug == slug) = none := by
      rw [List.find?_eq_none]
      intro g hgmem
      simpa using hmiss g hgmem
    simp [getGradientValueBySlug, hfind]

/-- C8 (witness): a slug present in the catalog displays via forward lookup. -/
theorem panel_effective_gradient_value_witness :
    hasGradientSupport ColorCapability.withGradients = true ∧
    optTruthy (({ gradient := some "cool" } : Attributes).gradient) = true ∧
    panelGradientValue ColorCapability.withGradients [⟨"cool", "lg1"⟩]
        { gradient := some "cool" }
      = getGradientValueBySlug [⟨"cool", "lg1"⟩]
          (({ gradient := some "cool" } : Attributes).gradient.getD "") :=
  ⟨by decide, by decide,
    (panel_effective_gradient_value ColorCapability.withGradients [⟨"cool", "lg1"⟩]
        { gradient := some "cool" } (by decide)).1 (by decide)⟩

/-- A joined class list containing a non-empty class is itself non-empty. -/
theorem classnamesJoin_length_pos (l : List String) (c : String)
    (hc : c ∈ l) (hlen : 0 < c.length) : 0 < (classnamesJoin l).length := by
  induction l with
  | nil => cases hc
  | cons a rest ih =>
    cases rest with
    | nil =>
      have hca : c = a := by simpa using hc
      subst hca
      simpa [classnamesJoin] using hlen
    | cons b rest2 =>
      have hj : classnamesJoin (a :: b :: rest2) = a ++ " " ++ classnamesJoin (b :: rest2) :=
        rfl
      have hsp : (" " : String).length = 1 := rfl
      rw [hj, String.length_append, String.length_append, hsp]
      omega

/-- C4: on a gradient-enabled block type, any attribute set with a truthy raw
gradient override makes the save filter drop the slug-derived background-color
class from the `classnames` arguments while the `has-background` flag class is
on and present in the emitted class list, and `addSaveProps` emits that list. -/
theorem addSaveProps_gradient_suppresses_background (cap : ColorCapability)
    (props : SaveProps) (attributes : Attributes)
    (hg : hasGradientSupport cap = true)
    (hv : optTruthy attributes.styleGradient = true) :
    (computeSaveClassSet cap props attributes).includeBackgroundClass = false ∧
    (computeSaveClassSet cap props attributes).hasBackgroundFlag = true ∧
    "has-background" ∈ (computeSaveClassSet cap props attributes).toList ∧
    addSaveProps cap props attributes
      = { className :=
            some (classnamesJoin (computeSaveClassSet cap props attributes).toList) } := by
  have hinc : (computeSaveClassSet cap props attributes).includeBackgroundClass = false := by
    simp [computeSaveClassSet, hg, hv]
  have hflag : (computeSaveClassSet cap props attributes).hasBackgroundFlag = true := by
    simp [computeSaveClassSet, hg, hv]
  have hmem : "has-background" ∈ (computeSaveClassSet cap props attributes).toList := by
    simp [SaveClassSet.toList, hflag]
  have hc : hasColorSupport cap = true := by
    cases cap <;> simp_all [hasGradientSupport, hasColorSupport]
  have hlen : 0 < (classnamesJoin (computeSaveClassSet cap props attributes).toList).length :=
    classnamesJoin_length_pos _ _ hmem (by decide)
  have hne : (classnamesJoin (computeSaveClassSet cap props attributes).toList == "") = false := by
    rcases hbe : (classnamesJoin (computeSaveClassSet cap props attributes).toList == "")
    · rfl
    · have hempty : classnamesJoin (computeSaveClassSet cap props attributes).toList = "" :=
        eq_of_beq hbe
      rw [hempty] at hlen
      simp at hlen
  exact ⟨hinc, hflag, hmem, by simp [addSaveProps, hc, hne]⟩

/-- C4 (witness): committing a custom gradient onto a snapshot with a named
background color leaves a snapshot whose save classes drop the background
class and keep `has-background`. -/
theorem addSaveProps_gradient_suppresses_background_witness :
    optTruthy (applyChannelChange [] [⟨"cool", "lg1"⟩] Channel.gradient
        (some "custom-gradient") { backgroundColor := some "red" }).styleGradient = true ∧
    (computeSaveClassSet ColorCapability.withGradients { className := none }
        (applyChannelChange [] [⟨"cool", "lg1"⟩] Channel.gradient (some "custom-gradient")
          { backgroundColor := some "red" })).includeBackgroundClass = false ∧
    (computeSaveClassSet ColorCapability.withGradients { className := none }
        (applyChannelChange [] [⟨"cool", "lg1"⟩] Channel.gradient (some "custom-gradient")
          { backgroundColor := some "red" })).hasBackgroundFlag = true :=
  ⟨by decide,
    (addSaveProps_gradient_suppresses_background ColorCapability.withGradients
      { className := none }
      (applyChannelChange [] [⟨"cool", "lg1"⟩] Channel.gradient (some "custom-gradient")
        { backgroundColor := some "red" })
      (by decide) (by decide)).1,
    (addSaveProps_gradient_suppresses_background ColorCapability.withGradients
      { className := none }
      (applyChannelChange [] [⟨"cool", "lg1"⟩] Channel.gradient (some "custom-gradient")
        { backgroundColor := some "red" })
      (by decide) (by decide)).2.1⟩
